import Mathlib

/-!
Verification of the external-resource RPC runtime of crossplane-runtime:
a shallow embedding of the provider-side session router
(pkg/external/server), the client-side streaming connector and session
(pkg/external/client), the handler registry and discovery
(pkg/external/server/provider.go), and the reconcile decision procedure,
together with theorems settling the specified properties.
-/

/-- A resource kind identifier: the `(group, version, kind)` triple
(`schema.GroupVersionKind`). -/
structure GVK where
  group : String
  version : String
  kind : String
deriving DecidableEq, Repr

/-- `GroupVersionKind.Empty()`: all three fields are empty. -/
def GVK.isEmpty (g : GVK) : Bool :=
  decide (g.group = "" ∧ g.version = "" ∧ g.kind = "")

/-- `GroupVersion.String()`: `group/version`, or just `version` when the
group is empty. -/
def GVK.groupVersionString (g : GVK) : String :=
  if g.group = "" then g.version else g.group ++ "/" ++ g.version

/-- `GroupVersionKind.String()`: `group "/" version ", Kind=" kind`. -/
def GVK.toName (g : GVK) : String :=
  g.group ++ "/" ++ g.version ++ ", Kind=" ++ g.kind

/-- A group/version pair (`schema.GroupVersion`). -/
structure GroupVersion where
  group : String
  version : String
deriving DecidableEq, Repr

/-- Number of `/` characters in a character list (`strings.Count`). -/
def countSlash : List Char → Nat
  | [] => 0
  | c :: cs => (if c = '/' then 1 else 0) + countSlash cs

/-- The characters before the first `/` (the `gv[:i]` slice at
`strings.Index(gv, "/")`). -/
def beforeSlash (cs : List Char) : List Char :=
  cs.takeWhile (fun c => c ≠ '/')

/-- The characters after the first `/` (the `gv[i+1:]` slice). -/
def afterSlash (cs : List Char) : List Char :=
  (cs.dropWhile (fun c => c ≠ '/')).tail

/-- `schema.ParseGroupVersion`: "" and "/" parse to the empty pair; no
slash means a bare version; one slash splits group from version; more
slashes are an error (`none`). -/
def parseGroupVersion (s : String) : Option GroupVersion :=
  if s = "" ∨ s = "/" then some ⟨"", ""⟩
  else
    match countSlash s.data with
    | 0 => some ⟨"", s⟩
    | 1 => some ⟨⟨beforeSlash s.data⟩, ⟨afterSlash s.data⟩⟩
    | _ => none

/-- The part of a protobuf `Struct` payload that the server inspects when
routing: the `apiVersion` and `kind` string fields. An absent or
non-string field reads as `""` (`GetStringValue`). -/
structure PbResource where
  apiVersion : String
  kind : String
deriving DecidableEq, Repr

/-- Errors the server session can return, one per `return` site of
`ProviderServer.Session` and `fromProtoStruct`. -/
inductive SessionError where
  | decodeError
  | noHandler
  | connectFailed
  | preconnect (op : String)
  | kindMismatch (expected got : GVK)
  | clientError
  | streamSend
  | streamRecv
  | unknownOp
deriving DecidableEq, Repr

/-- `fromProtoStruct`, restricted to the routing information it extracts:
take the `apiVersion` field when non-empty, parse it as a group/version,
and combine it with a non-empty `kind` field; an empty resulting triple
is an error. -/
def fromProtoStruct (res : PbResource) : Except SessionError GVK :=
  let gvk :=
    if res.apiVersion ≠ "" then
      match parseGroupVersion res.apiVersion with
      | none => none
      | some gv =>
          if res.kind ≠ "" then some (GVK.mk gv.group gv.version res.kind)
          else some ⟨"", "", ""⟩
    else some ⟨"", "", ""⟩
  match gvk with
  | none => .error .decodeError
  | some g => if g.isEmpty then .error .decodeError else .ok g

/-- A provider-side external client bound to one session
(`managed.TypedExternalClient`), abstracted to whether each of its
methods succeeds.  The client is an interface implemented outside this
repository, so its behaviour is environment input. -/
structure ExtClient where
  observeOk : Bool
  createOk : Bool
  updateOk : Bool
  deleteOk : Bool
deriving DecidableEq, Repr

/-- A registered handler factory (`managed.TypedExternalConnecter`):
whether its `Connect` succeeds, and the external client it yields. -/
structure Handler where
  connectOk : Bool
  client : ExtClient
deriving DecidableEq, Repr

/-- The handler registry: `map[schema.GroupVersionKind]TypedExternalConnecter`,
embedded as an association list with unique keys. -/
def lookupHandler : List (GVK × Handler) → GVK → Option Handler
  | [], _ => none
  | (g, h) :: rest, g' => if g = g' then some h else lookupHandler rest g'

/-- Per-session server state: the `connected` flag, the pinned
`resourceType`, and the bound `externalClient` of
`ProviderServer.Session`'s local variables. -/
structure SessionState where
  connected : Bool
  resourceType : GVK
  externalClient : Option ExtClient
deriving DecidableEq, Repr

/-- The zero-value state the session loop starts in. -/
def initialSessionState : SessionState :=
  { connected := false, resourceType := ⟨"", "", ""⟩, externalClient := none }

/-- The four CRUD operations dispatched by the session loop. -/
inductive CrudOp where
  | observe
  | create
  | update
  | delete
deriving DecidableEq, Repr

/-- A request received on the session stream (`v1alpha1.Request`). -/
inductive Request where
  | connect (res : PbResource)
  | crud (op : CrudOp) (res : PbResource)
  | disconnect
  | unknown
deriving DecidableEq, Repr

/-- The kind of response sent on the stream (`v1alpha1.Response`). -/
inductive RespKind where
  | connect
  | observe
  | create
  | update
  | delete
  | disconnect
deriving DecidableEq, Repr

/-- Observable actions of one server step: invoking a registered handler
factory, dispatching a CRUD call on the bound external client, or
disconnecting that client. -/
inductive Event where
  | handlerConnect (g : GVK)
  | clientDispatch (op : CrudOp) (g : GVK)
  | clientDisconnect
deriving DecidableEq, Repr

/-- How one iteration of the session loop ends: continue with a new
state, or return from `Session` with an error. `halt` carries the state
at the return point, which the deferred cleanup reads. -/
inductive StepOutcome where
  | next (s : SessionState)
  | halt (e : SessionError) (s : SessionState)
deriving DecidableEq, Repr

/-- Result of one iteration: the outcome, the events performed, and the
response sent (if any). -/
structure StepResult where
  outcome : StepOutcome
  events : List Event
  response : Option RespKind
deriving DecidableEq, Repr

/-- The error string used by the preconnect guard of each CRUD case. -/
def CrudOp.preconnectMsg : CrudOp → String
  | .observe => "observe called before successful connect"
  | .create => "create called before successful connect"
  | .update => "update called before successful connect"
  | .delete => "delete called before successful connect"

/-- Which client method a CRUD op invokes, and whether it succeeds. -/
def ExtClient.crudOk (c : ExtClient) : CrudOp → Bool
  | .observe => c.observeOk
  | .create => c.createOk
  | .update => c.updateOk
  | .delete => c.deleteOk

/-- The response variant matching a CRUD op. -/
def CrudOp.resp : CrudOp → RespKind
  | .observe => .observe
  | .create => .create
  | .update => .update
  | .delete => .delete

/-- One `Request_Observe`/`Create`/`Update`/`Delete` case of the session
switch: guard on `connected && externalClient != nil`, decode the
resource, check its kind against the pinned kind, invoke the bound
client, and send the matching response (`sendOk` models whether
`stream.Send` succeeds). -/
def crudStep (op : CrudOp) (st : SessionState) (res : PbResource) (sendOk : Bool) :
    StepResult :=
  match st.connected, st.externalClient with
  | true, some client =>
    match fromProtoStruct res with
    | .error e => ⟨.halt e st, [], none⟩
    | .ok gvk =>
      if gvk ≠ st.resourceType then
        ⟨.halt (.kindMismatch st.resourceType gvk) st, [], none⟩
      else if client.crudOk op then
        if sendOk then
          ⟨.next st, [.clientDispatch op gvk], some op.resp⟩
        else
          ⟨.halt .streamSend st, [.clientDispatch op gvk], none⟩
      else
        ⟨.halt .clientError st, [.clientDispatch op gvk], none⟩
  | _, _ => ⟨.halt (.preconnect op.preconnectMsg) st, [], none⟩

/-- The `Request_Connect` case: decode, look up a handler for the kind,
invoke its factory, pin the kind and bind the client, and send the
connect response. The state is updated before the send, so a failed send
returns with the new state. -/
def connectStep (handlers : List (GVK × Handler)) (st : SessionState)
    (res : PbResource) (sendOk : Bool) : StepResult :=
  match fromProtoStruct res with
  | .error e => ⟨.halt e st, [], none⟩
  | .ok gvk =>
    match lookupHandler handlers gvk with
    | none => ⟨.halt .noHandler st, [], none⟩
    | some h =>
      if h.connectOk then
        let st' : SessionState :=
          { connected := true, resourceType := gvk, externalClient := some h.client }
        if sendOk then
          ⟨.next st', [.handlerConnect gvk], some .connect⟩
        else
          ⟨.halt .streamSend st', [.handlerConnect gvk], none⟩
      else
        ⟨.halt .connectFailed st, [.handlerConnect gvk], none⟩

/-- The `Request_Disconnect` case: disconnect the bound client when one
is bound (ignoring its error), reset `connected` and `externalClient`,
and send a disconnect response; the loop then continues. -/
def disconnectStep (st : SessionState) (sendOk : Bool) : StepResult :=
  let evs : List Event :=
    match st.connected, st.externalClient with
    | true, some _ => [.clientDisconnect]
    | _, _ => []
  let st' : SessionState :=
    { connected := false, resourceType := st.resourceType, externalClient := none }
  if sendOk then
    ⟨.next st', evs, some .disconnect⟩
  else
    ⟨.halt .streamSend st', evs, none⟩

/-- One iteration of `ProviderServer.Session`'s loop: dispatch on the
request's operation. -/
def sessionStep (handlers : List (GVK × Handler)) (st : SessionState)
    (req : Request) (sendOk : Bool) : StepResult :=
  match req with
  | .connect res => connectStep handlers st res sendOk
  | .crud op res => crudStep op st res sendOk
  | .disconnect => disconnectStep st sendOk
  | .unknown => ⟨.halt .unknownOp st, [], none⟩

/-- The deferred cleanup of `Session`: disconnect the external client
when still connected at return time. -/
def cleanupEvents (st : SessionState) : List Event :=
  match st.connected, st.externalClient with
  | true, some _ => [.clientDisconnect]
  | _, _ => []

/-- The whole session loop over a finite stream of requests (each paired
with whether the response send for that step succeeds). Exhausting the
stream makes `Recv` fail, returning `streamRecv`. Returns the error the
session ends with, all events, and all responses sent. -/
def sessionRun (handlers : List (GVK × Handler)) :
    SessionState → List (Request × Bool) → SessionError × List Event × List RespKind
  | st, [] => (.streamRecv, cleanupEvents st, [])
  | st, (req, sOk) :: rest =>
    let r := sessionStep handlers st req sOk
    match r.outcome with
    | .halt e s => (e, r.events ++ cleanupEvents s, r.response.toList)
    | .next s =>
      let (e, evs, resps) := sessionRun handlers s rest
      (e, r.events ++ evs, r.response.toList ++ resps)

example :
    sessionStep [] initialSessionState (.crud .observe ⟨"example.org/v1", "Widget"⟩) true
      = ⟨.halt (.preconnect "observe called before successful connect") initialSessionState,
         [], none⟩ := by
  decide

/-! ## Client-side streaming session (pkg/external/client/streaming.go) -/

/-- Behaviour of the gRPC stream underlying a client session: whether
`Send` succeeds and what `Recv` yields (`none` = receive error). -/
structure StreamBehavior where
  sendOk : Bool
  recvResult : Option RespKind
deriving DecidableEq, Repr

/-- The state of a `StreamingClient`: its stream (nil after a
`Disconnect` releases the session) and the kind it was built with. -/
structure SClient where
  stream : Option StreamBehavior
  gvk : GVK
deriving DecidableEq, Repr

/-- The ways a client call can end: success, an error return, or a
run-time crash (a method call on a nil stream interface). -/
inductive CallResult where
  | ok
  | errSend
  | errRecv
  | errInvalidResponseType
  | crash
deriving DecidableEq, Repr

/-- `StreamingClient.Observe`: convert the resource, send an observe
request on `c.stream`, receive, and check the response variant. The
source never checks `c.stream` for nil; a call on a nil stream is a
nil-interface method call, which crashes. -/
def SClient.observe (c : SClient) : CallResult :=
  match c.stream with
  | none => .crash
  | some s =>
    if !s.sendOk then .errSend
    else
      match s.recvResult with
      | none => .errRecv
      | some .observe => .ok
      | some _ => .errInvalidResponseType

/-- `StreamingClient.Disconnect`: a nil stream is a successful no-op;
otherwise send a disconnect request and best-effort receive the reply
(errors are logged and ignored), then release the stream. Always
returns nil. -/
def SClient.disconnect (c : SClient) : SClient × CallResult :=
  match c.stream with
  | none => (c, .ok)
  | some _ => ({ c with stream := none }, .ok)

/-! ## Client-side connector (pkg/external/client/connector.go) -/

/-- Observable actions of `StreamingConnector.Connect`: creating the
shared transport via the client factory, and starting a streaming
session. -/
inductive ConnEvent where
  | transportCreate
  | sessionStart (g : GVK)
deriving DecidableEq, Repr

/-- Result of `StreamingConnector.Connect` and `Close`. -/
inductive ConnResult where
  | ok
  | errUnsupportedKind (g : GVK)
  | errConnectFailed
  | errSessionStartFailed
  | errDisconnectFailed
deriving DecidableEq, Repr

/-- The state of a `StreamingConnector`: the lazily created shared
transport (`conn`) and the allowed-kinds set (`gvkMap`), embedded as a
duplicate-free list. -/
structure ConnectorState where
  conn : Option Unit
  gvkMap : List GVK
deriving DecidableEq, Repr

/-- `StreamingConnector.Connect`: reject the kind when a non-empty
allowed-kinds set does not contain it; create the transport via the
factory when none exists yet (`factoryOk` models the factory call,
`sessionOk` the `startSession` handshake); then open a streaming
session. Returns the new connector state, the result, and the events
performed. -/
def connectorConnect (factoryOk sessionOk : Bool) (st : ConnectorState) (g : GVK) :
    ConnectorState × ConnResult × List ConnEvent :=
  if 0 < st.gvkMap.length ∧ g ∉ st.gvkMap then
    (st, .errUnsupportedKind g, [])
  else
    match st.conn with
    | none =>
      if factoryOk then
        let st' : ConnectorState := { st with conn := some () }
        if sessionOk then (st', .ok, [.transportCreate, .sessionStart g])
        else (st', .errSessionStartFailed, [.transportCreate, .sessionStart g])
      else (st, .errConnectFailed, [])
    | some _ =>
      if sessionOk then (st, .ok, [.sessionStart g])
      else (st, .errSessionStartFailed, [.sessionStart g])

/-- `StreamingConnector.Connect` with the allowed-kinds filter removed
(lines performing the `gvkMap` check deleted); used to state that an
empty allowed-kinds set disables filtering. -/
def connectorConnectUnfiltered (factoryOk sessionOk : Bool) (st : ConnectorState)
    (g : GVK) : ConnectorState × ConnResult × List ConnEvent :=
  match st.conn with
  | none =>
    if factoryOk then
      let st' : ConnectorState := { st with conn := some () }
      if sessionOk then (st', .ok, [.transportCreate, .sessionStart g])
      else (st', .errSessionStartFailed, [.transportCreate, .sessionStart g])
    else (st, .errConnectFailed, [])
  | some _ =>
    if sessionOk then (st, .ok, [.sessionStart g])
    else (st, .errSessionStartFailed, [.sessionStart g])

/-- `StreamingConnector.Close`: close the transport when one exists
(`closeOk` models `conn.Close()`); on success clear `conn` and the
cached service client; with no transport it is a successful no-op. -/
def connectorClose (closeOk : Bool) (st : ConnectorState) :
    ConnectorState × ConnResult :=
  match st.conn with
  | none => (st, .ok)
  | some _ =>
    if closeOk then ({ st with conn := none }, .ok)
    else (st, .errDisconnectFailed)

/-! ## Handler registry and discovery (pkg/external/server/provider.go) -/

/-- Result of `ProviderServer.RegisterHandler`. -/
inductive RegisterResult where
  | ok
  | errNilHandler
  | errEmptyGVK
  | errDuplicate
deriving DecidableEq, Repr

/-- `ProviderServer.RegisterHandler`: reject a nil handler, an empty
triple, and a duplicate kind; otherwise add the factory. Returns the
(possibly updated) registry and the result. -/
def registerHandler (reg : List (GVK × Handler)) (g : GVK) (h : Option Handler) :
    List (GVK × Handler) × RegisterResult :=
  match h with
  | none => (reg, .errNilHandler)
  | some handler =>
    if g.isEmpty then (reg, .errEmptyGVK)
    else if (lookupHandler reg g).isSome then (reg, .errDuplicate)
    else (reg ++ [(g, handler)], .ok)

/-- One entry of a discovery response (`v1alpha1.Reconciler`). -/
structure ReconcilerRef where
  named : String
  forApiVersion : String
  forKind : String
deriving DecidableEq, Repr

/-- A discovery response (`v1alpha1.DiscoveryResponse`). -/
structure DiscoveryResponse where
  version : String
  reconcilers : List ReconcilerRef
deriving DecidableEq, Repr

/-- `ProviderServer.Discover`: range over the registry's entries and
report one reconciler per registered kind, with the fixed version
string. The `range` over the Go handlers map visits its entries in an
order that is randomized anew on every range loop, so the argument here
is the enumeration one particular call observes: a single registry gives
rise to one `discoverServer enumeration` per permutation of its
entries. -/
def discoverServer (enumeration : List (GVK × Handler)) : DiscoveryResponse :=
  { version := "v1alpha1"
    reconcilers :=
      enumeration.map fun p => ⟨p.1.toName, p.1.groupVersionString, p.1.kind⟩ }

/-! ## Reconcile decision (spec 4.E) -/

/-- Modelled from the spec: `Reconciler.Reconcile` in
src/pkg/controller/managed/reconciler.go is a stub (`return {}, nil`);
the reconcile decision procedure of spec section 4.E step 4 is missing
from the sources. The action is decided from the observation flags and
the object's deletion timestamp: deletion pending takes Delete, a
non-existent resource takes Create, an existing but stale resource takes
Update, and otherwise no CRUD operation runs. -/
def decideAction (deletionPending resourceExists upToDate : Bool) : Option CrudOp :=
  if deletionPending then some .delete
  else if !resourceExists then some .create
  else if !upToDate then some .update
  else none

/-- Outcome of one reconcile decision: which CRUD call (if any) the
session performs, and whether the reconcile is requeued after the poll
interval. -/
structure ReconcileOutcome where
  crud : Option CrudOp
  requeueAfterPoll : Bool
deriving DecidableEq, Repr

/-- Modelled from the spec: the per-reconcile decision step of section
4.E. Deletion runs `session.Delete` (on success the finalizer is
cleared, there is no poll-interval requeue); Create and Update are
followed by a poll-interval requeue, as is the no-op case. -/
def reconcileStep (deletionPending resourceExists upToDate : Bool) : ReconcileOutcome :=
  match decideAction deletionPending resourceExists upToDate with
  | some .delete => ⟨some .delete, false⟩
  | some .create => ⟨some .create, true⟩
  | some .update => ⟨some .update, true⟩
  | some .observe => ⟨some .observe, true⟩
  | none => ⟨none, true⟩

/-! ## Concrete fixtures used in examples and witnesses -/

/-- The `example.org/v1 Widget` kind of the spec's scenarios. -/
def widgetGVK : GVK := ⟨"example.org", "v1", "Widget"⟩

/-- The `example.org/v1 Gadget` kind of the spec's kind-mismatch scenario. -/
def gadgetGVK : GVK := ⟨"example.org", "v1", "Gadget"⟩

/-- A payload decoding to `widgetGVK`. -/
def widgetPb : PbResource := ⟨"example.org/v1", "Widget"⟩

/-- A payload decoding to `gadgetGVK`. -/
def gadgetPb : PbResource := ⟨"example.org/v1", "Gadget"⟩

/-- An external client whose every method succeeds. -/
def demoClient : ExtClient := ⟨true, true, true, true⟩

/-- A handler whose factory succeeds, yielding `demoClient`. -/
def demoHandler : Handler := ⟨true, demoClient⟩

/-- A session in the Active state, pinned to `widgetGVK` with
`demoClient` bound. -/
def activeWidgetState : SessionState := ⟨true, widgetGVK, some demoClient⟩

instance {ε α : Type} [DecidableEq ε] [DecidableEq α] : DecidableEq (Except ε α) := fun a b =>
  match a, b with
  | .ok x, .ok y =>
    if h : x = y then .isTrue (by rw [h]) else .isFalse (by simp [h])
  | .error x, .error y =>
    if h : x = y then .isTrue (by rw [h]) else .isFalse (by simp [h])
  | .ok _, .error _ => .isFalse (by simp)
  | .error _, .ok _ => .isFalse (by simp)

example : fromProtoStruct widgetPb = .ok widgetGVK := by decide

example : fromProtoStruct gadgetPb = .ok gadgetGVK := by decide

/-! ## Helper lemmas -/

/-- Looking up a freshly appended key finds its handler, provided the
key was not present before. -/
theorem lookupHandler_append_self (reg : List (GVK × Handler)) (g : GVK) (h : Handler)
    (habs : lookupHandler reg g = none) :
    lookupHandler (reg ++ [(g, h)]) g = some h := by
  induction reg with
  | nil => simp [lookupHandler]
  | cons p rest ih =>
    simp only [List.cons_append, lookupHandler]
    simp only [lookupHandler] at habs
    by_cases hp : p.1 = g
    · simp [hp] at habs
    · simp only [hp, if_false] at habs ⊢
      exact ih habs

/-! ## Claim theorems -/

/-- C1: in a session where Connect succeeded (connected, client bound),
an Observe/Create/Update/Delete request whose decoded kind differs from
the pinned kind makes the server return a kind-mismatch error without
dispatching to the bound external client, while a request whose kind
equals the pinned kind is dispatched to the bound external client. -/
theorem session_active_kind_pinned (handlers : List (GVK × Handler))
    (st : SessionState) (cl : ExtClient) (op : CrudOp) (res : PbResource)
    (sendOk : Bool) (g : GVK)
    (hconn : st.connected = true) (hcl : st.externalClient = some cl)
    (hdec : fromProtoStruct res = .ok g) :
    (g ≠ st.resourceType →
      sessionStep handlers st (.crud op res) sendOk
        = ⟨.halt (.kindMismatch st.resourceType g) st, [], none⟩) ∧
    (g = st.resourceType →
      Event.clientDispatch op g ∈ (sessionStep handlers st (.crud op res) sendOk).events) := by
  constructor
  · intro hne
    simp [sessionStep, crudStep, hconn, hcl, hdec, hne]
  · intro heq
    simp only [sessionStep, crudStep, hconn, hcl, hdec, heq]
    by_cases h1 : cl.crudOk op <;> by_cases h2 : sendOk <;>
      simp [h1, h2]

/-- Witness for C1 at concrete inputs: in the Active Widget session a
Gadget Observe halts with a kind mismatch and dispatches nothing, and a
Widget Observe is dispatched to the bound client. -/
theorem session_active_kind_pinned_witness :
    (sessionStep [] activeWidgetState (.crud .observe gadgetPb) true
      = ⟨.halt (.kindMismatch widgetGVK gadgetGVK) activeWidgetState, [], none⟩) ∧
    Event.clientDispatch .observe widgetGVK
      ∈ (sessionStep [] activeWidgetState (.crud .observe widgetPb) true).events := by
  have h := session_active_kind_pinned [] activeWidgetState demoClient .observe
    gadgetPb true gadgetGVK rfl rfl (by decide)
  have h' := session_active_kind_pinned [] activeWidgetState demoClient .observe
    widgetPb true widgetGVK rfl rfl (by decide)
  exact ⟨h.1 (by decide), h'.2 (by decide)⟩

/-- C2 counterexample: the claim says every non-Connect first request,
including Disconnect, terminates the session with a pre-connect error.
On a fresh session a Disconnect request is instead answered with a
Disconnect response, invokes nothing, and the loop continues in the
Opening state. -/
theorem session_preconnect_disconnect_counterexample :
    sessionStep [] initialSessionState .disconnect true
      = ⟨.next initialSessionState, [], some .disconnect⟩ := by
  decide

/-- C2 amended: a first request that is Observe, Create, Update, or
Delete terminates the session with a pre-connect error and invokes no
handler factory or external-client method; a Disconnect received in the
Opening state is instead answered with a Disconnect response (when the
send succeeds), invokes nothing, and the session stays open in the
Opening state. -/
theorem session_preconnect_guard (handlers : List (GVK × Handler))
    (st : SessionState) (op : CrudOp) (res : PbResource) (sendOk : Bool)
    (hopening : st.connected = false) :
    (sessionStep handlers st (.crud op res) sendOk
      = ⟨.halt (.preconnect op.preconnectMsg) st, [], none⟩) ∧
    ((sessionStep handlers st .disconnect sendOk).events = [] ∧
      (sendOk = true →
        sessionStep handlers st .disconnect sendOk
          = ⟨.next ⟨false, st.resourceType, none⟩, [], some .disconnect⟩)) := by
  refine ⟨?_, ?_, ?_⟩
  · simp [sessionStep, crudStep, hopening]
  · by_cases hs : sendOk <;> simp [sessionStep, disconnectStep, hopening, hs]
  · intro hs
    simp [sessionStep, disconnectStep, hopening, hs]

/-- Witness for C2 amended at concrete inputs: on a fresh session an
Observe halts with the pre-connect error, and a Disconnect is answered
and the session continues. -/
theorem session_preconnect_guard_witness :
    (sessionStep [] initialSessionState (.crud .observe widgetPb) true
      = ⟨.halt (.preconnect "observe called before successful connect")
          initialSessionState, [], none⟩) ∧
    ((sessionStep [] initialSessionState .disconnect true).events = [] ∧
      (true = true →
        sessionStep [] initialSessionState .disconnect true
          = ⟨.next ⟨false, initialSessionState.resourceType, none⟩, [],
             some .disconnect⟩)) := by
  have h := session_preconnect_guard [] initialSessionState .observe widgetPb true rfl
  exact ⟨h.1, h.2⟩

/-- C3 counterexample: the claim says a Disconnect in the Active state
makes the server return, closing the session so no further requests are
served. In an Active session followed by a Disconnect and then a new
Connect, the Connect is still served: the handler factory runs again and
a Connect response is sent after the Disconnect response. -/
theorem session_disconnect_returns_counterexample :
    sessionRun [(widgetGVK, demoHandler)] activeWidgetState
        [(.disconnect, true), (.connect widgetPb, true)]
      = (.streamRecv,
         [.clientDisconnect, .handlerConnect widgetGVK, .clientDisconnect],
         [.disconnect, .connect]) := by
  decide

/-- C3 amended: receiving a Disconnect in the Active state makes the
server disconnect the bound external client, reply with a Disconnect
response (when the send succeeds), and reset the session to the Opening
state with no client bound; the server does not return, so the stream
stays open and subsequent requests (such as a new Connect) are served. -/
theorem session_disconnect_resets (handlers : List (GVK × Handler))
    (st : SessionState) (cl : ExtClient) (sendOk : Bool)
    (hconn : st.connected = true) (hcl : st.externalClient = some cl) :
    (sessionStep handlers st .disconnect sendOk).events = [.clientDisconnect] ∧
    (sendOk = true →
      sessionStep handlers st .disconnect sendOk
        = ⟨.next ⟨false, st.resourceType, none⟩, [.clientDisconnect],
           some .disconnect⟩) := by
  constructor
  · by_cases hs : sendOk <;> simp [sessionStep, disconnectStep, hconn, hcl, hs]
  · intro hs
    simp [sessionStep, disconnectStep, hconn, hcl, hs]

/-- Witness for C3 amended at concrete inputs: in the Active Widget
session a Disconnect closes the client, replies, and resets the state. -/
theorem session_disconnect_resets_witness :
    (sessionStep [] activeWidgetState .disconnect true).events
      = [.clientDisconnect] ∧
    (true = true →
      sessionStep [] activeWidgetState .disconnect true
        = ⟨.next ⟨false, activeWidgetState.resourceType, none⟩,
           [.clientDisconnect], some .disconnect⟩) :=
  session_disconnect_resets [] activeWidgetState demoClient true rfl rfl

/-- C4: the reconcile decision is a function of the observation flags
and the deletion timestamp: deletion pending runs Delete; a resource
that does not exist runs Create; one that exists but is stale runs
Update; otherwise no CRUD operation runs and the reconcile is requeued
after the poll interval. (Spec-modelled: the source Reconcile is a
stub.) -/
theorem reconcile_decision (dp ex utd : Bool) :
    (dp = true → reconcileStep dp ex utd = ⟨some .delete, false⟩) ∧
    (dp = false → ex = false → reconcileStep dp ex utd = ⟨some .create, true⟩) ∧
    (dp = false → ex = true → utd = false →
      reconcileStep dp ex utd = ⟨some .update, true⟩) ∧
    (dp = false → ex = true → utd = true →
      reconcileStep dp ex utd = ⟨none, true⟩) := by
  cases dp <;> cases ex <;> cases utd <;> simp [reconcileStep, decideAction]

/-- Witness for C4 at concrete inputs: each of the four cases of the
decision table, evaluated. -/
theorem reconcile_decision_witness :
    reconcileStep true true true = ⟨some .delete, false⟩ ∧
    reconcileStep false false true = ⟨some .create, true⟩ ∧
    reconcileStep false true false = ⟨some .update, true⟩ ∧
    reconcileStep false true true = ⟨none, true⟩ := by
  refine ⟨(reconcile_decision true true true).1 rfl,
          (reconcile_decision false false true).2.1 rfl rfl,
          (reconcile_decision false true false).2.2.1 rfl rfl rfl,
          (reconcile_decision false true true).2.2.2 rfl rfl rfl⟩

/-- A client session on a live stream whose sends succeed and whose
receives yield disconnect responses. -/
def demoSClient : SClient := ⟨some ⟨true, some .disconnect⟩, widgetGVK⟩

/-- C5: after `Disconnect` releases the stream (and itself returns nil),
a subsequent `Observe` does not return a session-closed error: the
source checks nothing and calls `Send` on the nil stream, which is a
nil-interface method call and crashes. This evaluates the code at the
failing input. -/
theorem observe_after_disconnect_crashes :
    demoSClient.disconnect.2 = .ok ∧
    demoSClient.disconnect.1.stream = none ∧
    demoSClient.disconnect.1.observe = .crash := by
  decide

/-- A connector holding a live transport and no allowed-kinds filter. -/
def openConnState : ConnectorState := ⟨some (), []⟩

/-- C6 counterexample: the claim says that after a successful `Close`
every subsequent `Connect` fails. Closing `openConnState` succeeds, and
a subsequent `Connect` (factory and session-open succeeding) returns ok:
the transport is lazily re-created rather than the call failing. -/
theorem connect_after_close_counterexample :
    (connectorClose true openConnState).2 = .ok ∧
    (connectorConnect true true (connectorClose true openConnState).1 widgetGVK).2.1
      = .ok ∧
    ConnEvent.transportCreate
      ∈ (connectorConnect true true (connectorClose true openConnState).1 widgetGVK).2.2 := by
  decide

/-- C6 amended: after `Close` returns successfully the connector holds
no transport, and a subsequent `Connect` behaves exactly as on a
connector that never created one: it lazily re-creates the transport via
the client factory and proceeds (succeeding when the factory and
session-open succeed) rather than failing. -/
theorem connect_after_close (closeOk factoryOk sessionOk : Bool)
    (st : ConnectorState) (g : GVK)
    (hclosed : (connectorClose closeOk st).2 = .ok) :
    (connectorClose closeOk st).1.conn = none ∧
    connectorConnect factoryOk sessionOk (connectorClose closeOk st).1 g
      = connectorConnect factoryOk sessionOk ⟨none, st.gvkMap⟩ g ∧
    (st.gvkMap = [] →
      (connectorConnect true true (connectorClose closeOk st).1 g).2.1 = .ok) := by
  have hst : (connectorClose closeOk st).1 = ⟨none, st.gvkMap⟩ := by
    cases st with
    | mk conn gvkMap =>
      cases conn with
      | none => simp [connectorClose]
      | some u =>
        cases closeOk with
        | false => simp [connectorClose] at hclosed
        | true => simp [connectorClose]
  refine ⟨by rw [hst], by rw [hst], ?_⟩
  intro hempty
  rw [hst]
  simp [connectorConnect, hempty]

/-- Witness for C6 amended at concrete inputs: closing `openConnState`
succeeds, so a subsequent Connect equals a Connect on a fresh connector
and succeeds. -/
theorem connect_after_close_witness :
    (connectorClose true openConnState).1.conn = none ∧
    connectorConnect true true (connectorClose true openConnState).1 widgetGVK
      = connectorConnect true true ⟨none, openConnState.gvkMap⟩ widgetGVK ∧
    (openConnState.gvkMap = [] →
      (connectorConnect true true (connectorClose true openConnState).1 widgetGVK).2.1
        = .ok) :=
  connect_after_close true true true openConnState widgetGVK (by decide)

/-- C7: when the connector was built with a non-empty allowed-kinds set
and the object's kind is not in it, `Connect` returns the
unsupported-kind error, leaves the connector unchanged (no transport
created), and opens no session. -/
theorem connect_unsupported_kind (factoryOk sessionOk : Bool)
    (st : ConnectorState) (g : GVK)
    (hne : st.gvkMap ≠ []) (hnotin : g ∉ st.gvkMap) :
    connectorConnect factoryOk sessionOk st g = (st, .errUnsupportedKind g, []) := by
  have hlen : 0 < st.gvkMap.length := List.length_pos.mpr hne
  simp [connectorConnect, hlen, hnotin]

/-- Witness for C7 at concrete inputs: a connector allowing only Widget
rejects a Gadget Connect without touching its state. -/
theorem connect_unsupported_kind_witness :
    connectorConnect true true ⟨none, [widgetGVK]⟩ gadgetGVK
      = (⟨none, [widgetGVK]⟩, .errUnsupportedKind gadgetGVK, []) :=
  connect_unsupported_kind true true ⟨none, [widgetGVK]⟩ gadgetGVK
    (by decide) (by decide)

/-- C8: `RegisterHandler` fails on a nil factory, on the empty triple,
and on a duplicate kind, leaving the registry unchanged in each case;
otherwise it adds the factory (which lookup then finds) and succeeds. -/
theorem register_handler_cases (reg : List (GVK × Handler)) (g : GVK)
    (h : Option Handler) :
    (h = none → registerHandler reg g h = (reg, .errNilHandler)) ∧
    (∀ hh, h = some hh → g.isEmpty = true →
      registerHandler reg g h = (reg, .errEmptyGVK)) ∧
    (∀ hh, h = some hh → g.isEmpty = false → (lookupHandler reg g).isSome →
      registerHandler reg g h = (reg, .errDuplicate)) ∧
    (∀ hh, h = some hh → g.isEmpty = false → lookupHandler reg g = none →
      registerHandler reg g h = (reg ++ [(g, hh)], .ok) ∧
      lookupHandler (registerHandler reg g h).1 g = some hh) := by
  refine ⟨?_, ?_, ?_, ?_⟩
  · intro hn
    simp [registerHandler, hn]
  · intro hh hs hemp
    simp [registerHandler, hs, hemp]
  · intro hh hs hemp hdup
    simp [registerHandler, hs, hemp, Option.isSome_iff_exists.mp hdup]
    obtain ⟨x, hx⟩ := Option.isSome_iff_exists.mp hdup
    simp [hx]
  · intro hh hs hemp habs
    have hreg : registerHandler reg g h = (reg ++ [(g, hh)], .ok) := by
      simp [registerHandler, hs, hemp, habs]
    exact ⟨hreg, by rw [hreg]; exact lookupHandler_append_self reg g hh habs⟩

/-- Witness for C8 at concrete inputs: the four cases evaluated on a
singleton registry. -/
theorem register_handler_cases_witness :
    (registerHandler [(widgetGVK, demoHandler)] gadgetGVK none
      = ([(widgetGVK, demoHandler)], .errNilHandler)) ∧
    (registerHandler [(widgetGVK, demoHandler)] ⟨"", "", ""⟩ (some demoHandler)
      = ([(widgetGVK, demoHandler)], .errEmptyGVK)) ∧
    (registerHandler [(widgetGVK, demoHandler)] widgetGVK (some demoHandler)
      = ([(widgetGVK, demoHandler)], .errDuplicate)) ∧
    (registerHandler [(widgetGVK, demoHandler)] gadgetGVK (some demoHandler)
      = ([(widgetGVK, demoHandler), (gadgetGVK, demoHandler)], .ok) ∧
     lookupHandler
        (registerHandler [(widgetGVK, demoHandler)] gadgetGVK (some demoHandler)).1
        gadgetGVK
      = some demoHandler) := by
  refine ⟨(register_handler_cases [(widgetGVK, demoHandler)] gadgetGVK none).1 rfl,
    (register_handler_cases [(widgetGVK, demoHandler)] ⟨"", "", ""⟩
      (some demoHandler)).2.1 demoHandler rfl (by decide),
    (register_handler_cases [(widgetGVK, demoHandler)] widgetGVK
      (some demoHandler)).2.2.1 demoHandler rfl (by decide) (by decide),
    (register_handler_cases [(widgetGVK, demoHandler)] gadgetGVK
      (some demoHandler)).2.2.2 demoHandler rfl (by decide) (by decide)⟩

/-- C9 counterexample: the claim says two successive Discover calls
over a stable registry return equal results. Discover ranges over the
handlers map, and the map's iteration order is randomized anew per
range loop: these two enumerations of the same unchanged two-entry
registry are both orders a call can observe, and the responses they
produce differ (the reconcilers lists are reversed). -/
theorem discover_order_counterexample :
    [(widgetGVK, demoHandler), (gadgetGVK, demoHandler)].Perm
      [(gadgetGVK, demoHandler), (widgetGVK, demoHandler)] ∧
    discoverServer [(widgetGVK, demoHandler), (gadgetGVK, demoHandler)]
      ≠ discoverServer [(gadgetGVK, demoHandler), (widgetGVK, demoHandler)] := by
  refine ⟨List.Perm.swap _ _ _, ?_⟩
  decide

/-- C9 amended: over a stable registry (no registrations or removals
between the two calls), two successive Discover calls return results
that are equal up to the randomized map iteration order: whatever
enumerations of the registry's entries the two range loops observe, the
responses carry the same version and the same multiset of reconcilers;
the order of the reconcilers list may differ between the calls. -/
theorem discover_stable_registry (reg order1 order2 : List (GVK × Handler))
    (h1 : order1.Perm reg) (h2 : order2.Perm reg) :
    (discoverServer order1).version = (discoverServer order2).version ∧
    (discoverServer order1).reconcilers.Perm (discoverServer order2).reconcilers := by
  constructor
  · rfl
  · simp only [discoverServer]
    exact (h1.map _).trans (h2.map _).symm

/-- Witness for C9 amended at concrete inputs: two opposite
enumerations of the same two-entry registry yield responses with the
same version and mutually permuted reconcilers. -/
theorem discover_stable_registry_witness :
    (discoverServer [(widgetGVK, demoHandler), (gadgetGVK, demoHandler)]).version
      = (discoverServer [(gadgetGVK, demoHandler), (widgetGVK, demoHandler)]).version ∧
    (discoverServer
        [(widgetGVK, demoHandler), (gadgetGVK, demoHandler)]).reconcilers.Perm
      (discoverServer
        [(gadgetGVK, demoHandler), (widgetGVK, demoHandler)]).reconcilers :=
  discover_stable_registry [(widgetGVK, demoHandler), (gadgetGVK, demoHandler)]
    [(widgetGVK, demoHandler), (gadgetGVK, demoHandler)]
    [(gadgetGVK, demoHandler), (widgetGVK, demoHandler)]
    (List.Perm.refl _) (List.Perm.swap _ _ _)

/-- C10: an empty allowed-kinds set disables kind filtering entirely:
`Connect` then behaves exactly as the same code with the filter removed,
and in particular never returns the unsupported-kind error, for every
kind. -/
theorem connect_empty_allowlist_unfiltered (factoryOk sessionOk : Bool)
    (st : ConnectorState) (g : GVK) (hempty : st.gvkMap = []) :
    connectorConnect factoryOk sessionOk st g
      = connectorConnectUnfiltered factoryOk sessionOk st g ∧
    (∀ g', (connectorConnect factoryOk sessionOk st g).2.1
      ≠ .errUnsupportedKind g') := by
  have hfilter : ¬(0 < st.gvkMap.length ∧ g ∉ st.gvkMap) := by
    simp [hempty]
  constructor
  · simp [connectorConnect, connectorConnectUnfiltered, hfilter]
  · intro g'
    simp only [connectorConnect, hfilter, if_false]
    rcases hc : st.conn with _ | u
    · cases factoryOk with
      | false => simp
      | true => cases sessionOk <;> simp
    · cases sessionOk <;> simp

/-- Witness for C10 at concrete inputs: a connector with no allowed
kinds connects a Widget exactly as the unfiltered code does, and never
reports it unsupported. -/
theorem connect_empty_allowlist_unfiltered_witness :
    connectorConnect true true ⟨none, []⟩ widgetGVK
      = connectorConnectUnfiltered true true ⟨none, []⟩ widgetGVK ∧
    (∀ g', (connectorConnect true true ⟨none, []⟩ widgetGVK).2.1
      ≠ .errUnsupportedKind g') :=
  connect_empty_allowlist_unfiltered true true ⟨none, []⟩ widgetGVK rfl
